import Mathlib

/-!
Verification of the Hall-effect GPIB measurement script (HallDataR.py).

The Python class HallDataR is shallowly embedded here.  Machine floats are
modelled as exact rationals, Python lists as Lean lists, datetime values by
their ISO-8601 string form, and instrument I/O as explicit event traces.
Python runtime errors (NameError, UnboundLocalError, TypeError) are modelled
by an explicit error type, since several methods of the source raise them
unconditionally.
-/

/-- A datetime value, represented by the string its isoformat method yields. -/
abbrev Timestamp := String

/-- Python runtime errors that the embedded methods can raise. -/
inductive PyError
  | unboundLocalError (name : String)
  | nameError (name : String)
  | typeError (msg : String)
  deriving DecidableEq, Repr

/-- The per-quantity parallel lists of HallDataR, initialised empty by
HallDataR.__init__ (src/HallDataR.py lines 72-84). -/
structure HallDataR where
  times : List Timestamp
  diodevs : List ℚ
  currs : List ℚ
  fields : List ℚ
  ef_vs : List ℚ
  ef_os : List ℚ
  bf_vs : List ℚ
  bf_os : List ℚ
  ad_vs : List ℚ
  ad_os : List ℚ
  freqs : List ℚ
  deriving DecidableEq, Repr

/-- The store produced by HallDataR.__init__: every sequence empty. -/
def freshStore : HallDataR :=
  { times := [], diodevs := [], currs := [], fields := [], ef_vs := [],
    ef_os := [], bf_vs := [], bf_os := [], ad_vs := [], ad_os := [],
    freqs := [] }

/-- The self.data list of HallDataR.__init__ (line 83): the ten numeric
sequences, in the order they are listed in the source. -/
def HallDataR.data (s : HallDataR) : List (List ℚ) :=
  [s.diodevs, s.currs, s.fields, s.ef_vs, s.ef_os, s.bf_vs, s.bf_os,
   s.ad_vs, s.ad_os, s.freqs]

/-- One reading of every instrument quantity, i.e. the values returned by the
measure_* helper methods during one call of HallDataR.measure. -/
structure Readings where
  diode : ℚ
  curr : ℚ
  field : ℚ
  bf_r : ℚ
  bf_o : ℚ
  ef_r : ℚ
  ef_o : ℚ
  ad_r : ℚ
  ad_o : ℚ
  freq : ℚ
  deriving DecidableEq, Repr

/-- HallDataR.measure (lines 165-182).  Appends the timestamp and the readings
to the per-quantity lists exactly as the source does: note that lines 177-180
append both the R and the theta reading of the EF and AD channels to ef_vs
and ad_vs, and never touch ef_os and ad_os.  Returns the updated store and
the value of the return expression len(self.times)-1. -/
def HallDataR.measure (s : HallDataR) (t : Timestamp) (r : Readings) : HallDataR × Nat :=
  let s1 : HallDataR :=
    { times := s.times ++ [t]
      diodevs := s.diodevs ++ [r.diode]
      currs := s.currs ++ [r.curr]
      fields := s.fields ++ [r.field]
      bf_vs := s.bf_vs ++ [r.bf_r]
      bf_os := s.bf_os ++ [r.bf_o]
      ef_vs := s.ef_vs ++ [r.ef_r, r.ef_o]
      ef_os := s.ef_os
      ad_vs := s.ad_vs ++ [r.ad_r, r.ad_o]
      ad_os := s.ad_os
      freqs := s.freqs ++ [r.freq] }
  (s1, s1.times.length - 1)

/-- The store obtained from a fresh store by n successive calls of measure,
the k-th call taking timestamp ts k and readings rs k. -/
def measure_calls (ts : Nat → Timestamp) (rs : Nat → Readings) : Nat → HallDataR
  | 0 => freshStore
  | n + 1 => (HallDataR.measure (measure_calls ts rs n) (ts n) (rs n)).1

/-- Rendering of a numeric value as text.  Python would print a float in
decimal notation; the embedding prints the exact rational. -/
def floatStr (q : ℚ) : String :=
  if q.den = 1 then toString q.num
  else toString q.num ++ "/" ++ toString q.den

/-- Python str applied to a list of floats: the renderings of the elements,
separated by a comma and a space, inside square brackets. -/
def pyStrList (l : List ℚ) : String :=
  "[" ++ String.intercalate ", " (l.map floatStr) ++ "]"

/-- HallDataR.write_line_to_csv (lines 104-116).  Returns the text appended to
the file: the isoformat of times[i], a comma, then for each datum in
self.data the Python str of the WHOLE list datum followed by a comma (the
source writes str(datum), not str(datum[i])), then a newline.  The index i is
assumed valid for times, as at every call site in the source. -/
def HallDataR.write_line_to_csv (s : HallDataR) (i : Nat) : String :=
  s.times.getD i "" ++ "," ++
    String.join (s.data.map (fun datum => pyStrList datum ++ ",")) ++ "\n"

/-- HallDataR.export_to_csv (lines 119-127): appends write_line_to_csv for
every index from 0 to len(times)-1, in order. -/
def HallDataR.export_to_csv (s : HallDataR) : String :=
  String.join ((List.range s.times.length).map (s.write_line_to_csv))

/-- The single line the spec says serializeRow(i) produces, stated from the
words of the spec for comparison with write_line_to_csv: the ISO-8601
timestamp, then the i-th element of each per-quantity sequence in the fixed
column order, each value followed by a comma, terminated by a newline. -/
def serializeRow_spec (s : HallDataR) (i : Nat) : String :=
  s.times.getD i "" ++ "," ++
    String.join (s.data.map (fun datum => floatStr (datum.getD i 0) ++ ",")) ++ "\n"

/-- HallDataR.import_from_csv (lines 129-146).  After self.times.clear(), the
statement for datum in data evaluates the bare name data; data is assigned
only later in the body (line 140), so it is an unbound local name at that
point and the call raises UnboundLocalError before the file is opened or any
line of the content is read.  (Had execution continued, line 146 would also
fail: self.datum is not an attribute.) -/
def HallDataR.import_from_csv (_s : HallDataR) (_content : String) : Except PyError HallDataR :=
  Except.error (PyError.unboundLocalError "data")

/-- A fixed one-row store used as the concrete example of the spec, with
timestamp 2024-01-01T00:00:00, diode voltage 0.5, current 10, field 0.6914,
lock-in readings 1 to 6 and frequency 517.94746792 (as exact rationals). -/
def sampleStore : HallDataR :=
  { times := ["2024-01-01T00:00:00"]
    diodevs := [{ num := 1, den := 2 }]
    currs := [(10 : ℚ)]
    fields := [{ num := 3457, den := 5000 }]
    ef_vs := [(1 : ℚ)]
    ef_os := [(2 : ℚ)]
    bf_vs := [(3 : ℚ)]
    bf_os := [(4 : ℚ)]
    ad_vs := [(5 : ℚ)]
    ad_os := [(6 : ℚ)]
    freqs := [{ num := 6474343349, den := 12500000 }] }

/-- A fixed readings value matching sampleStore, used as a concrete input for
measure. -/
def sampleReadings : Readings :=
  { diode := { num := 1, den := 2 }
    curr := 10
    field := { num := 3457, den := 5000 }
    bf_r := 3
    bf_o := 4
    ef_r := 1
    ef_o := 2
    ad_r := 5
    ad_o := 6
    freq := { num := 6474343349, den := 12500000 } }

/-- The polling loop of HallDataR.change_field (lines 268-270).  The argument
list is the stream of successive responses to the FIELD:MAG? query, in the
order the loop would receive them.  Python evaluates the disjunction
left-to-right with short-circuiting, so each loop iteration issues one query
for the upper-bound test and, only when that test fails, a second query for
the lower-bound test.  The result none means the stream was exhausted with
the loop still running; some (r1, r2) means the loop exited, r1 being the
reading that passed the upper-bound test of the final iteration and r2 the
last reading taken, which passed the lower-bound test. -/
def change_field_poll (field : ℚ) : List ℚ → Option (ℚ × ℚ)
  | [] => none
  | [_] => none
  | r1 :: r2 :: rest =>
    if r1 > 1.1 * field then change_field_poll field (r2 :: rest)
    else if r2 < 0.9 * field then change_field_poll field rest
    else some (r1, r2)

/-- Observable actions of the sweep controller, in the order they happen. -/
inductive Event
  | changeField (f : ℚ)
  | sleep (seconds : ℚ)
  | measureRow (index : Nat)
  | writeRow (index : Nat)
  | magWrite (cmd : String)
  deriving DecidableEq, Repr

/-- The class attribute HallDataR.time_constants (lines 27-30), in seconds. -/
def time_constants : List ℚ :=
  [10e-6, 30e-6, 100e-6, 300e-6,
   1e-3, 3e-3, 10e-3, 30e-3, 100e-3, 300e-3,
   1, 3, 10, 30, 100, 300,
   1e3, 3e3, 10e3, 30e3]

/-- The class attribute HallDataR.sensitivities (lines 31-34), in volts. -/
def sensitivities : List ℚ :=
  [2e-9, 5e-9, 10e-9, 20e-9, 50e-9, 100e-9, 200e-9, 500e-9,
   1e-6, 2e-6, 5e-6, 10e-6, 20e-6, 50e-6, 100e-6, 200e-6, 500e-6,
   1e-3, 2e-3, 5e-3, 10e-3, 20e-3, 50e-3, 100e-3, 200e-3, 500e-3,
   1]

/-- The inner for loop of HallDataR.multi_measure (lines 159-162): given the
settle time tc of one sleep call and n rows already recorded, performs k
iterations of sleep, measure, write_line_to_csv.  Returns the event trace and
the new row count.  Each measure call returns the index of the row it has just
appended (the row count before the call), and write_line_to_csv is called on
exactly that index. -/
def sampleLoop (tc : ℚ) : Nat → Nat → List Event × Nat
  | n, 0 => ([], n)
  | n, k + 1 =>
    let tail := sampleLoop tc (n + 1) k
    (Event.sleep tc :: Event.measureRow n :: Event.writeRow n :: tail.1, tail.2)

/-- HallDataR.multi_measure (lines 148-163), as the event trace it generates.
The parameter time_constant is the instance attribute self.time_constant (the
index set by setup), and n is the number of rows already in the store.  For
each target field, the magnet is ramped (change_field, whose own polling is
modelled by change_field_poll), then 5 samples are taken, each preceded by a
sleep of 3 * time_constants[time_constant] seconds and written to the file
immediately; after the last target the magnet current program is set to 0. -/
def multi_measure (time_constant : Nat) : List ℚ → Nat → List Event × Nat
  | [], n => ([Event.magWrite ("CONF:CURR:PROG " ++ toString (0 : Nat))], n)
  | f :: fs, n =>
    let blk := sampleLoop (3 * time_constants.getD time_constant 0) n 5
    let rest := multi_measure time_constant fs blk.2
    (Event.changeField f :: blk.1 ++ rest.1, rest.2)

/-- The trace shape the spec ascribes to a sweep, stated for comparison with
multi_measure: one block per target, strictly in input order, each block being
a field change followed by exactly 5 sampled rows with consecutive indices,
every row preceded by a settle sleep of d seconds and written immediately
after it is measured. -/
def sweepTrace (d : ℚ) : List ℚ → Nat → List Event
  | [], _ => []
  | f :: fs, n =>
    Event.changeField f ::
      ((List.range 5).flatMap fun i =>
        [Event.sleep d, Event.measureRow (n + i), Event.writeRow (n + i)]) ++
      sweepTrace d fs (n + 5)

/-- The five instruments a HallDataR instance owns. -/
inductive Device
  | lockin1
  | lockin2
  | lockin3
  | dmm
  | magCtrl
  deriving DecidableEq, Repr

/-- HallDataR.setup (lines 184-223), as the list of (device, command string)
writes it performs, paired with the error in which it ends.  The commands are
listed in source order.  Line 218 evaluates "CONF:COIL " + self.coil_constant,
where self.coil_constant is the float 0.06914 set on line 191: concatenating a
str with a float raises TypeError, so setup always raises after the
CONF:CURR:MAX 72 write and the remaining magnet-controller commands are never
sent.  The parameter render stands for Python str on the frequency float. -/
def setup (render : ℚ → String) (freq : ℚ) (time_constant : Nat) :
    List (Device × String) × Option PyError :=
  let lockinBlock := fun d =>
    [(d, "*RST"), (d, "OUTX 1"), (d, "ISRC 1"), (d, "IGND 1"), (d, "ICPL 1"),
     (d, "OFLT " ++ toString time_constant)]
  (lockinBlock Device.lockin1 ++ lockinBlock Device.lockin2 ++
     lockinBlock Device.lockin3 ++
     [(Device.lockin1, "FMOD 1"), (Device.lockin2, "FMOD 0"),
      (Device.lockin3, "FMOD 2"),
      (Device.lockin1, "FREQ " ++ render freq),
      (Device.lockin1, "SLVL 1.0"), (Device.lockin1, "SENS 26"),
      (Device.dmm, "*RST"), (Device.dmm, "CONF:VOLT:AC"),
      (Device.magCtrl, "CONF:CURR:MAX 72")],
   some (PyError.typeError "can only concatenate str (not float) to str"))

/-- HallDataR.set_current_limit (lines 234-242), as the list of command
strings written to the magnet controller paired with the error in which the
call ends.  The assignment self.current = current on line 241 succeeds, but
line 242 then reads the bare name mag_ctrl, which is defined in no enclosing
scope (the attribute is self.mag_ctrl), so a NameError is raised before any
write reaches the controller.  The returned value records the attribute the
call managed to set. -/
def set_current_limit (current : ℚ) : (List String × Option ℚ) × Option PyError :=
  (([], some current), some (PyError.nameError "mag_ctrl"))

theorem magProgZero : "CONF:CURR:PROG " ++ toString (0 : Nat) = "CONF:CURR:PROG 0" := by
  decide

theorem measure_calls_times_length (ts : Nat → Timestamp) (rs : Nat → Readings) :
    ∀ n, (measure_calls ts rs n).times.length = n := by
  intro n
  induction n with
  | zero => rfl
  | succ n ih => simp [measure_calls, HallDataR.measure, ih]

/-- Claim C1: the source violates the equal-length invariant.  A single
measure call on a fresh store leaves the timestamp sequence with 1 element,
but appends both the R and the theta reading of the EF and AD channels to
ef_vs and ad_vs (2 elements each) and nothing to ef_os and ad_os (0 elements),
so the per-quantity sequences do not all have equal length after the append. -/
theorem measure_length_divergence :
    (HallDataR.measure freshStore "2024-01-01T00:00:00" sampleReadings).1.times.length = 1 ∧
    (HallDataR.measure freshStore "2024-01-01T00:00:00" sampleReadings).1.diodevs.length = 1 ∧
    (HallDataR.measure freshStore "2024-01-01T00:00:00" sampleReadings).1.ef_vs.length = 2 ∧
    (HallDataR.measure freshStore "2024-01-01T00:00:00" sampleReadings).1.ef_os.length = 0 ∧
    (HallDataR.measure freshStore "2024-01-01T00:00:00" sampleReadings).1.ad_vs.length = 2 ∧
    (HallDataR.measure freshStore "2024-01-01T00:00:00" sampleReadings).1.ad_os.length = 0 :=
  ⟨rfl, rfl, rfl, rfl, rfl, rfl⟩

/-- Claim C9: measure returns the index of the row it has just appended, which
equals the length of the timestamp sequence after the append minus 1; on a
fresh store, the call numbered n+1 (made after n prior calls) returns n. -/
theorem measure_returns_new_index (ts : Nat → Timestamp) (rs : Nat → Readings) :
    (∀ (s : HallDataR) (t : Timestamp) (r : Readings),
      (s.measure t r).2 = (s.measure t r).1.times.length - 1 ∧
      (s.measure t r).1.times.length = s.times.length + 1) ∧
    (∀ n : Nat, ((measure_calls ts rs n).measure (ts n) (rs n)).2 = n) := by
  constructor
  · intro s t r
    constructor
    · rfl
    · simp [HallDataR.measure]
  · intro n
    simp [HallDataR.measure, measure_calls_times_length]

/-- Claim C3: the round-trip law fails on the source.  import_from_csv raises
UnboundLocalError for the name data on every input before reading a single
line, in particular on the text that export_to_csv produces for the one-row
example store, so the original samples are never reproduced. -/
theorem export_import_roundtrip_fails :
    HallDataR.import_from_csv freshStore (sampleStore.export_to_csv) =
      Except.error (PyError.unboundLocalError "data") := rfl

/-- Claim C8: on every store and every input text, import_from_csv aborts with
UnboundLocalError for the name data before the file is opened, so no line,
malformed or not, is ever parsed, and the abort is not a parse error of any
row. -/
theorem import_aborts_before_any_line (s : HallDataR) (content : String) :
    s.import_from_csv content = Except.error (PyError.unboundLocalError "data") := rfl

/-- Claim C10: for every current argument, set_current_limit sets the
attribute self.current and then raises NameError for the bare name mag_ctrl,
so no command string is ever written to the magnet controller. -/
theorem set_current_limit_writes_nothing (current : ℚ) :
    set_current_limit current =
      (([], some current), some (PyError.nameError "mag_ctrl")) := rfl

/-- Claim C6: a sweep over the empty target sequence takes no measurement,
writes no row, sleeps never, and still sends exactly the single final command
CONF:CURR:PROG 0 to the magnet controller. -/
theorem multi_measure_empty_sweep (tcIdx n : Nat) :
    multi_measure tcIdx [] n = ([Event.magWrite "CONF:CURR:PROG 0"], n) := by
  simp [multi_measure, magProgZero]

theorem sampleLoop_spec (tc : ℚ) : ∀ (k n : Nat),
    sampleLoop tc n k =
      ((List.range k).flatMap (fun i =>
        [Event.sleep tc, Event.measureRow (n + i), Event.writeRow (n + i)]),
       n + k) := by
  intro k
  induction k with
  | zero => intro n; simp [sampleLoop]
  | succ k ih =>
    intro n
    simp only [sampleLoop, ih (n + 1), List.range_succ_eq_map, List.flatMap_cons,
      List.flatMap_map, Nat.add_zero, Nat.add_assoc, Nat.add_comm 1]
    rfl

theorem multi_measure_spec (tcIdx : Nat) : ∀ (fs : List ℚ) (n : Nat),
    multi_measure tcIdx fs n =
      (sweepTrace (3 * time_constants.getD tcIdx 0) fs n ++
        [Event.magWrite "CONF:CURR:PROG 0"],
       n + 5 * fs.length) := by
  intro fs
  induction fs with
  | nil => intro n; simp [multi_measure, sweepTrace, magProgZero]
  | cons f fs ih =>
    intro n
    simp only [multi_measure, sampleLoop_spec, ih, sweepTrace, List.length_cons,
      Prod.mk.injEq]
    constructor
    · simp [List.append_assoc]
    · ring

/-- Claim C5: a sweep over the targets 0.1 and 0.2 appends and writes exactly
10 rows in order, the 5 rows of target 0.1 (indices 0 to 4) before the 5 rows
of target 0.2 (indices 5 to 9), each row preceded by a settle sleep of
3 * time_constants[7] = 9/100 seconds and written immediately after it is
measured; and in general every sweep processes its targets strictly in order,
producing per target one field change followed by 5 sampled rows with
consecutive indices, then the final current-program-0 command. -/
theorem multi_measure_two_target_sweep :
    multi_measure 7 [0.1, 0.2] 0 =
      ([Event.changeField 0.1,
        Event.sleep (9/100), Event.measureRow 0, Event.writeRow 0,
        Event.sleep (9/100), Event.measureRow 1, Event.writeRow 1,
        Event.sleep (9/100), Event.measureRow 2, Event.writeRow 2,
        Event.sleep (9/100), Event.measureRow 3, Event.writeRow 3,
        Event.sleep (9/100), Event.measureRow 4, Event.writeRow 4,
        Event.changeField 0.2,
        Event.sleep (9/100), Event.measureRow 5, Event.writeRow 5,
        Event.sleep (9/100), Event.measureRow 6, Event.writeRow 6,
        Event.sleep (9/100), Event.measureRow 7, Event.writeRow 7,
        Event.sleep (9/100), Event.measureRow 8, Event.writeRow 8,
        Event.sleep (9/100), Event.measureRow 9, Event.writeRow 9,
        Event.magWrite "CONF:CURR:PROG 0"], 10) ∧
    (∀ (tcIdx : Nat) (fs : List ℚ) (n : Nat),
      multi_measure tcIdx fs n =
        (sweepTrace (3 * time_constants.getD tcIdx 0) fs n ++
          [Event.magWrite "CONF:CURR:PROG 0"],
         n + 5 * fs.length)) := by
  have hd : 3 * time_constants.getD 7 0 = (9/100 : ℚ) := by
    norm_num [time_constants]
  constructor
  · rw [multi_measure_spec, hd]
    simp [sweepTrace, List.range_succ]
  · exact multi_measure_spec

/-- Claim C4 is refuted as stated: with target field 1 and successive
FIELD:MAG? readings 1 then 2, the polling loop of change_field exits (the
first reading passes the upper-bound test, the second passes the lower-bound
test), yet the most recent reading 2 lies outside the band [0.9, 1.1], so
change_field returns control with the last field reading outside
[0.9 * f, 1.1 * f]. -/
theorem change_field_exit_outside_band :
    change_field_poll 1 [1, 2] = some (1, 2) ∧
    ¬ (0.9 * 1 ≤ (2 : ℚ) ∧ (2 : ℚ) ≤ 1.1 * 1) := by
  constructor
  · norm_num [change_field_poll]
  · norm_num

/-- Claim C4 amended: whenever the polling loop of change_field exits, the
reading r1 it used for the upper-bound test of its final iteration satisfies
r1 <= 1.1 * f and the last reading r2, used for the lower-bound test,
satisfies 0.9 * f <= r2.  Because the two tests query the instrument
separately, only this pair of one-sided bounds holds, not membership of the
last reading in [0.9 * f, 1.1 * f]. -/
theorem change_field_poll_sound (field r1 r2 : ℚ) (readings : List ℚ)
    (h : change_field_poll field readings = some (r1, r2)) :
    r1 ≤ 1.1 * field ∧ 0.9 * field ≤ r2 := by
  have aux : ∀ (fuel : Nat) (rs : List ℚ), rs.length ≤ fuel →
      change_field_poll field rs = some (r1, r2) →
      r1 ≤ 1.1 * field ∧ 0.9 * field ≤ r2 := by
    intro fuel
    induction fuel with
    | zero =>
      intro rs hlen heq
      match rs with
      | [] => exact absurd heq (by simp [change_field_poll])
    | succ fuel ih =>
      intro rs hlen heq
      match rs with
      | [] => exact absurd heq (by simp [change_field_poll])
      | [a] => exact absurd heq (by simp [change_field_poll])
      | a :: b :: rest =>
        rw [change_field_poll] at heq
        by_cases h1 : a > 1.1 * field
        · rw [if_pos h1] at heq
          refine ih (b :: rest) ?_ heq
          have hl : rest.length + 2 ≤ fuel + 1 := by simpa using hlen
          simp
          omega
        · rw [if_neg h1] at heq
          by_cases h2 : b < 0.9 * field
          · rw [if_pos h2] at heq
            refine ih rest ?_ heq
            have hl : rest.length + 2 ≤ fuel + 1 := by simpa using hlen
            omega
          · rw [if_neg h2] at heq
            simp only [Option.some.injEq, Prod.mk.injEq] at heq
            obtain ⟨ha, hb⟩ := heq
            subst ha
            subst hb
            exact ⟨not_lt.mp h1, not_lt.mp h2⟩
  exact aux readings.length readings le_rfl h

/-- Witness for change_field_poll_sound at target field 0 with readings 0, 0. -/
theorem change_field_poll_sound_witness :
    (0 : ℚ) ≤ 1.1 * 0 ∧ 0.9 * 0 ≤ (0 : ℚ) :=
  change_field_poll_sound 0 0 0 [0, 0] (by simp [change_field_poll])

/-- Claim C2 is refuted on the source: for the one-row example store,
write_line_to_csv renders each per-quantity column as the Python str of the
whole list (bracketed) instead of the i-th element of the list, so the line
it emits differs from the single delimited line the spec prescribes. -/
theorem write_line_whole_list_divergence :
    sampleStore.write_line_to_csv 0 =
      "2024-01-01T00:00:00,[1/2],[10],[3457/5000],[1],[2],[3],[4],[5],[6],[6474343349/12500000],\n" ∧
    serializeRow_spec sampleStore 0 =
      "2024-01-01T00:00:00,1/2,10,3457/5000,1,2,3,4,5,6,6474343349/12500000,\n" ∧
    sampleStore.write_line_to_csv 0 ≠ serializeRow_spec sampleStore 0 := by
  refine ⟨by decide, by decide, by decide⟩

/-- Claim C7 is refuted on the source: for every frequency and time-constant
index, setup sends the reset and configuration commands of the three lock-ins,
the reference, frequency, amplitude and sensitivity commands, the multimeter
configuration and the magnet max-current command, but then raises TypeError
while building the coil-constant command (line 218 concatenates the string
CONF:COIL with the float 0.06914), so the remaining magnet-controller
commands are never sent and setup never completes without error. -/
theorem setup_raises_type_error (render : ℚ → String) (freq : ℚ) (tcIdx : Nat) :
    (setup render freq tcIdx).2 =
      some (PyError.typeError "can only concatenate str (not float) to str") ∧
    (Device.magCtrl, "CONF:CURR:MAX 72") ∈ (setup render freq tcIdx).1 ∧
    (Device.dmm, "CONF:VOLT:AC") ∈ (setup render freq tcIdx).1 ∧
    (Device.magCtrl, "CONF:FIELD:UNITS:1") ∉ (setup render freq tcIdx).1 ∧
    (Device.magCtrl, "CONF:PS 1") ∉ (setup render freq tcIdx).1 ∧
    (Device.magCtrl, "CONF:PS:CURR 53") ∉ (setup render freq tcIdx).1 ∧
    (Device.magCtrl, "PS 1") ∉ (setup render freq tcIdx).1 ∧
    (Device.magCtrl, "CONF:STAB 50") ∉ (setup render freq tcIdx).1 := by
  refine ⟨rfl, ?_, ?_, ?_, ?_, ?_, ?_, ?_⟩ <;> simp [setup]
